import Mathlib

/-!
Verification of the credCode spam-detection core: a shallow embedding of the
Cayley-backed graph repository (an RDF-style quad store), the three concrete
spam rules (contact-count, call-pattern, second-level-contact), the average
scorer and the detection service. Go `float64` score arithmetic is modelled
over `ℚ`; `time.Time` values are modelled as integer timestamps (seconds),
with an RFC3339-formatted time string modelled by the `QuadValue.timeStr`
constructor (formatting and parsing are mutually inverse on such values).
-/

namespace CredCode

/-- A value stored in the object position of a Cayley quad.  The Go code
stores Go `string`, `bool` and `int` values plus RFC3339-formatted time
strings; `timeStr t` stands for the RFC3339 rendering of the time `t`. -/
inductive QuadValue where
  | str (s : String)
  | int (i : Int)
  | bool (b : Bool)
  | timeStr (t : Int)
deriving DecidableEq

/-- `quad.ToString` of a stored value (its native string rendering). -/
def QuadValue.toDisplayString : QuadValue → String
  | .str s => s
  | .int i => toString i
  | .bool b => if b then "true" else "false"
  | .timeStr t => "rfc3339(" ++ toString t ++ ")"

/-- One Cayley quad (the Go code always uses a nil label). -/
structure Quad where
  subject : String
  predicate : String
  object : QuadValue
deriving DecidableEq

/-- The state of `CayleyGraphRepository`: the memstore's quads (insertion
order, duplicates ignored) and the shared `edgeCounter`. -/
structure Store where
  quads : List Quad
  edgeCounter : Nat
deriving DecidableEq

def Store.empty : Store := { quads := [], edgeCounter := 0 }

/-- `store.AddQuad`: the memstore ignores a quad that is already present. -/
def addQuad (s : Store) (q : Quad) : Store :=
  if q ∈ s.quads then s else { s with quads := s.quads ++ [q] }

/-- `nodeExistsUnsafe`: the path `phone -type-> ?` is non-empty. -/
def nodeExists (s : Store) (phone : String) : Bool :=
  s.quads.any (fun q => q.subject = phone && q.predicate = "type")

/-- `GetUsersWithContact`: all subjects of `? -has_contact-> phone` quads,
paired with their count, as in the Go `([]string, int)` return. -/
def getUsersWithContact (s : Store) (phone : String) : List String × Nat :=
  let users := (s.quads.filter
    (fun q => q.predicate = "has_contact" && q.object = QuadValue.str phone)).map
      (fun q => q.subject)
  (users, users.length)

/-- `IsDirectContact`: the path `user -has_contact-> caller` is non-empty. -/
def isDirectContact (s : Store) (user caller : String) : Bool :=
  s.quads.any (fun q =>
    q.subject = user && q.predicate = "has_contact" && q.object = QuadValue.str caller)

/-- `GetSecondLevelContactCount`: walk the distinct contacts of `user`
(in first-seen order, the `checkedContacts` set) and count those that have
`caller` as a direct contact. -/
def getSecondLevelContactCount (s : Store) (user caller : String) : Nat :=
  let contacts := ((s.quads.filter
    (fun q => q.subject = user && q.predicate = "has_contact")).map
      (fun q => q.object.toDisplayString)).dedup
  (contacts.filter (fun m => isDirectContact s m caller)).length

/-- Edge metadata: the two registered variants of the Go `EdgeMetadata`
interface (`ContactMetadata` and `CallMetadata`). -/
inductive EdgeMetadata where
  | contact (name : String) (addedAt : Int)
  | call (isAnswered : Bool) (durationInSeconds : Int) (timestamp : Int)
deriving DecidableEq

/-- `EdgeType()` of a metadata value (`EdgeTypeContact = "has_contact"`,
`EdgeTypeCall = "call"`). -/
def EdgeMetadata.edgeType : EdgeMetadata → String
  | .contact _ _ => "has_contact"
  | .call _ _ _ => "call"

/-- `Validate()`: `some msg` is the returned error, `none` is success.
`ContactMetadata` rejects an empty contact name; `CallMetadata` rejects a
negative duration. -/
def EdgeMetadata.validate : EdgeMetadata → Option String
  | .contact name _ => if name = "" then some "contact name cannot be empty" else none
  | .call _ dur _ => if dur < 0 then some "call duration cannot be negative" else none

/-- The Go `models.Edge` (the `Metadata` pointer may be nil). -/
structure Edge where
  id : String
  from' : String
  to' : String
  type : String
  metadata : Option EdgeMetadata
  createdAt : Int
deriving DecidableEq

/-- `AddEdgeWithMetadata`: validate, auto-create missing endpoint nodes,
bump the shared edge counter, store the type-specific quads and return the
created edge.  The pair's second component is the repository state after the
call (unchanged when validation fails). -/
def addEdgeWithMetadata (s : Store) (f t : String) (m : EdgeMetadata) :
    Except String Edge × Store :=
  match m.validate with
  | some msg => (Except.error ("invalid metadata: " ++ msg), s)
  | none =>
    let s₁ := if nodeExists s f then s else addQuad s ⟨f, "type", QuadValue.str "node"⟩
    let s₂ := if nodeExists s₁ t then s₁ else addQuad s₁ ⟨t, "type", QuadValue.str "node"⟩
    let counter := s₂.edgeCounter + 1
    let s₃ : Store := { s₂ with edgeCounter := counter }
    let edgeID := m.edgeType ++ "_" ++ toString counter
    let s₄ :=
      match m with
      | .contact name addedAt =>
        let s' := addQuad s₃ ⟨f, "has_contact", QuadValue.str t⟩
        let contactKey := f ++ "_contact_" ++ t
        let s'' :=
          if name = "" then s'
          else addQuad (addQuad (addQuad s' ⟨contactKey, "name", QuadValue.str name⟩)
            ⟨contactKey, "from", QuadValue.str f⟩) ⟨contactKey, "to", QuadValue.str t⟩
        addQuad s'' ⟨contactKey, "added_at", QuadValue.timeStr addedAt⟩
      | .call ans dur ts =>
        let s' := addQuad (addQuad (addQuad s₃ ⟨edgeID, "type", QuadValue.str "call"⟩)
          ⟨edgeID, "from", QuadValue.str f⟩) ⟨edgeID, "to", QuadValue.str t⟩
        addQuad (addQuad (addQuad s' ⟨edgeID, "is_answered", QuadValue.bool ans⟩)
          ⟨edgeID, "duration_in_seconds", QuadValue.int dur⟩)
          ⟨edgeID, "timestamp", QuadValue.timeStr ts⟩
    let createdAt :=
      match m with
      | .contact _ addedAt => addedAt
      | .call _ _ ts => ts
    (Except.ok { id := edgeID, from' := f, to' := t, type := m.edgeType,
                 metadata := some m, createdAt := createdAt }, s₄)

/-- `AddContactEdge` (backward compatible): builds a `ContactMetadata` with
an empty name and the current time, then delegates to `AddEdgeWithMetadata`.
`now` models `time.Now()`. -/
def addContactEdge (s : Store) (phone1 phone2 : String) (now : Int) :
    Except String Unit × Store :=
  let r := addEdgeWithMetadata s phone1 phone2 (EdgeMetadata.contact "" now)
  (r.1.map (fun _ => ()), r.2)

/-- `AddCallEdge` (backward compatible): delegates to `AddEdgeWithMetadata`
with a `CallMetadata`. -/
def addCallEdge (s : Store) (f t : String) (isAnswered : Bool) (duration : Int)
    (timestamp : Int) : Except String Edge × Store :=
  addEdgeWithMetadata s f t (EdgeMetadata.call isAnswered duration timestamp)

/-- `DeleteNode`: `ErrNodeNotFound` when absent, otherwise remove every quad
whose subject or object (as a string) is the phone number. -/
def deleteNode (s : Store) (phone : String) : Except String Unit × Store :=
  if nodeExists s phone then
    let kept := s.quads.filter
      (fun q => !(q.subject = phone || q.object.toDisplayString = phone))
    (Except.ok (), { s with quads := kept })
  else (Except.error "node not found", s)

/-- First quad from `subj` over predicate `pred`, as in the Cayley
`StartPath(subj).Out(pred)` lookups that take only the first result. -/
def findQuadValue (s : Store) (subj pred : String) : Option QuadValue :=
  (s.quads.find? (fun q => q.subject = subj && q.predicate = pred)).map
    (fun q => q.object)

/-- Does `id` carry a `type -> "call"` quad (the `.Has("type", "call")` step)? -/
def hasTypeCall (s : Store) (id : String) : Bool :=
  s.quads.any (fun q =>
    q.subject = id && q.predicate = "type" && q.object = QuadValue.str "call")

/-- `getCallEdgeWithMetadataUnsafe`: reconstruct a call edge from its quads.
Missing properties default as in `CallMetadata.FromProperties` (`false`, `0`,
zero time modelled by `0`); a stored `created_at` property overrides
`timestamp`. -/
def getCallEdgeUnsafe (s : Store) (callID : String) : Edge :=
  let fromPhone :=
    match findQuadValue s callID "from" with
    | some v => v.toDisplayString
    | none => ""
  let toPhone :=
    match findQuadValue s callID "to" with
    | some v => v.toDisplayString
    | none => ""
  let ans :=
    match findQuadValue s callID "is_answered" with
    | some (QuadValue.bool b) => b
    | _ => false
  let dur :=
    match findQuadValue s callID "duration_in_seconds" with
    | some (QuadValue.int n) => n
    | _ => 0
  let ts :=
    match findQuadValue s callID "created_at" with
    | some (QuadValue.timeStr t) => t
    | _ =>
      match findQuadValue s callID "timestamp" with
      | some (QuadValue.timeStr t) => t
      | _ => 0
  { id := callID, from' := fromPhone, to' := toPhone, type := "call",
    metadata := some (EdgeMetadata.call ans dur ts), createdAt := ts }

/-- `getCallsByPhoneUnsafe`: call IDs reached by
`Start(phone).In(direction).Has("type", "call")`, loaded as edges. -/
def getCallsByPhoneUnsafe (s : Store) (phone direction : String) : List Edge :=
  ((s.quads.filter (fun q =>
    q.predicate = direction && q.object = QuadValue.str phone
      && hasTypeCall s q.subject)).map (fun q => getCallEdgeUnsafe s q.subject))

/-- The Go `CallFilters` struct (all filters optional). -/
structure CallFilters where
  isAnswered : Option Bool := none
  maxDuration : Option Int := none
  minDuration : Option Int := none
  timeRangeStart : Option Int := none
  timeRangeEnd : Option Int := none

/-- `matchesCallFilters`: AND of the optional filters; the time range is
inclusive at both ends (`Before`/`After` are strict in Go). -/
def matchesCallFilters (e : Edge) (filters : CallFilters) : Bool :=
  if e.type ≠ "call" then false
  else
    match e.metadata with
    | some (EdgeMetadata.call ans dur _) =>
      (match filters.isAnswered with
       | some want => ans = want
       | none => true) &&
      (match filters.maxDuration with
       | some maxD => decide (dur ≤ maxD)
       | none => true) &&
      (match filters.minDuration with
       | some minD => decide (minD ≤ dur)
       | none => true) &&
      (match filters.timeRangeStart with
       | some start => decide (start ≤ e.createdAt)
       | none => true) &&
      (match filters.timeRangeEnd with
       | some stop => decide (e.createdAt ≤ stop)
       | none => true)
    | _ => false

/-- `GetCallsWithFilters`: candidates by direction (`"both"` concatenates
outgoing and incoming), then the AND-filter; returns `(edges, count)`. -/
def getCallsWithFilters (s : Store) (phone : String) (filters : CallFilters)
    (direction : String) : List Edge × Nat :=
  let candidates :=
    if direction = "outgoing" then getCallsByPhoneUnsafe s phone "from"
    else if direction = "incoming" then getCallsByPhoneUnsafe s phone "to"
    else if direction = "both" then
      getCallsByPhoneUnsafe s phone "from" ++ getCallsByPhoneUnsafe s phone "to"
    else getCallsByPhoneUnsafe s phone "from"
  let filtered := candidates.filter (fun e => matchesCallFilters e filters)
  (filtered, filtered.length)

/-- Builds one contact edge returned by `GetOutgoingEdges`, looking up the
name/added_at metadata quads under the `from_contact_to` key; `now` models
the `time.Now()` default used when `added_at` is missing or unparsable. -/
def buildContactEdgeOut (s : Store) (phone : String) (q : Quad) (now : Int) : Edge :=
  let toPhone := q.object.toDisplayString
  let contactKey := phone ++ "_contact_" ++ toPhone
  match findQuadValue s contactKey "name" with
  | some nv =>
    let addedAt :=
      match findQuadValue s contactKey "added_at" with
      | some (QuadValue.timeStr t) => t
      | _ => now
    { id := "", from' := phone, to' := toPhone, type := "has_contact",
      metadata := some (EdgeMetadata.contact nv.toDisplayString addedAt),
      createdAt := addedAt }
  | none =>
    { id := "", from' := phone, to' := toPhone, type := "has_contact",
      metadata := none, createdAt := 0 }

/-- `GetOutgoingEdges`: contact edges from the `phone -has_contact-> ?`
quads (with metadata populated when available), call edges via the call
index; any other edge type yields the empty list. -/
def getOutgoingEdges (s : Store) (phone : String) (edgeType : String)
    (now : Int) : List Edge :=
  if edgeType = "has_contact" then
    (s.quads.filter (fun q =>
      q.subject = phone && q.predicate = "has_contact")).map
        (fun q => buildContactEdgeOut s phone q now)
  else if edgeType = "call" then getCallsByPhoneUnsafe s phone "from"
  else []

/-- The Go `models.SpamScore`. -/
structure SpamScore where
  ruleName : String
  score : ℚ
  reason : String
deriving DecidableEq

/-- The score branch of `ContactCountRule.Evaluate` as a function of the
contact count: `maxScore` below one contact, linear decay below the
threshold, then a clamped residual `0.1 * (1 - (n-T)/(n+T))`. -/
def contactCountScore (threshold : Int) (maxScore : ℚ) (count : Nat) : ℚ :=
  if count = 0 then maxScore
  else if (count : Int) < threshold then
    maxScore * (1 - (count : ℚ) / (threshold : ℚ))
  else if (1 / 10 : ℚ) *
      (1 - ((count : ℚ) - (threshold : ℚ)) / ((count : ℚ) + (threshold : ℚ))) < 0 then 0
  else (1 / 10 : ℚ) *
    (1 - ((count : ℚ) - (threshold : ℚ)) / ((count : ℚ) + (threshold : ℚ)))

/-- The reason string branch of `ContactCountRule.Evaluate`. -/
def contactCountReason (threshold : Int) (count : Nat) : String :=
  if count = 0 then "Phone number not saved by any user (0 contacts)"
  else if (count : Int) < threshold then
    "Phone number saved by only " ++ toString count ++ " user(s) (below threshold of "
      ++ toString threshold ++ ")"
  else "Phone number saved by " ++ toString count ++ " users (trusted)"

/-- `ContactCountRule.Evaluate`: query `GetUsersWithContact` and score the
count; never returns an error. -/
def contactCountEvaluate (threshold : Int) (maxScore : ℚ) (s : Store)
    (phoneNumber : String) : SpamScore :=
  let count := (getUsersWithContact s phoneNumber).2
  { ruleName := "contact_count_rule",
    score := contactCountScore threshold maxScore count,
    reason := contactCountReason threshold count }

/-- The score branch of `CallPatternRule.Evaluate` as a function of the
suspicious-call count: `0` for no suspicious calls, otherwise
`weight * (1 - 1/(1+c))` capped at `weight`. -/
def callPatternScore (weight : ℚ) (count : Nat) : ℚ :=
  if count = 0 then 0
  else if weight < weight * (1 - 1 / (1 + (count : ℚ))) then weight
  else weight * (1 - 1 / (1 + (count : ℚ)))

/-- The filters built by `CallPatternRule.Evaluate`: answered calls of
duration at most the threshold, within the window ending at `now`. -/
def callPatternFilters (durationThreshold : Int) (timeWindow : Int)
    (now : Int) : CallFilters :=
  { isAnswered := some true, maxDuration := some durationThreshold,
    timeRangeStart := some (now - timeWindow) }

/-- `CallPatternRule.Evaluate`: count the answered short calls to or from
the phone within the window, score them, and report the total call count in
the window in the reason; never returns an error.  `now` models
`time.Now()`. -/
def callPatternEvaluate (durationThreshold : Int) (timeWindow : Int)
    (weight : ℚ) (s : Store) (phoneNumber : String) (now : Int) : SpamScore :=
  let count := (getCallsWithFilters s phoneNumber
    (callPatternFilters durationThreshold timeWindow now) "both").2
  let reason :=
    if count = 0 then
      "No suspicious call patterns found in last " ++ toString timeWindow ++ "s"
    else
      let totalCount := (getCallsWithFilters s phoneNumber
        { timeRangeStart := some (now - timeWindow) } "both").2
      "Found " ++ toString count ++ " suspicious calls (answered but <="
        ++ toString durationThreshold ++ "s) out of " ++ toString totalCount
        ++ " total calls in last " ++ toString timeWindow ++ "s"
  { ruleName := "call_pattern_rule",
    score := callPatternScore weight count,
    reason := reason }

/-- The store queries a rule evaluation can make, recorded in order; used to
state the short-circuit guarantees of the second-level rule. -/
inductive StoreQuery where
  | isDirectContactQ (user caller : String)
  | getSecondLevelContactCountQ (user caller : String)
deriving DecidableEq

/-- `SecondLevelContactRule.Evaluate`, paired with the trace of store
queries it performs: skip (no queries) when the user phone is empty; score
`0` after only the direct-contact query when the caller is a direct
contact; otherwise score the level-2 count with the same three-branch
formula as the contact-count rule. -/
def secondLevelEvaluate (threshold : Int) (maxScore : ℚ) (s : Store)
    (phoneNumber userPhoneNumber : String) : SpamScore × List StoreQuery :=
  if userPhoneNumber = "" then
    ({ ruleName := "second_level_contact_rule", score := 0,
       reason := "User phone number not provided, skipping second-level contact check" },
     [])
  else if isDirectContact s userPhoneNumber phoneNumber then
    ({ ruleName := "second_level_contact_rule", score := 0,
       reason := "Caller is in user's direct contact list (level 1)" },
     [StoreQuery.isDirectContactQ userPhoneNumber phoneNumber])
  else
    let level2Count := getSecondLevelContactCount s userPhoneNumber phoneNumber
    let reason :=
      if level2Count = 0 then
        "Caller not in user's contacts or contacts of user's contacts (0 level-2 matches)"
      else if (level2Count : Int) < threshold then
        "Caller found in " ++ toString level2Count
          ++ " of user's contact's contact lists (below threshold of "
          ++ toString threshold ++ ")"
      else
        "Caller found in " ++ toString level2Count
          ++ " of user's contact's contact lists (trusted via level-2)"
    ({ ruleName := "second_level_contact_rule",
       score := contactCountScore threshold maxScore level2Count,
       reason := reason },
     [StoreQuery.isDirectContactQ userPhoneNumber phoneNumber,
      StoreQuery.getSecondLevelContactCountQ userPhoneNumber phoneNumber])

/-- `AverageScorer.CalculateScore`: `(0, false)` on an empty list, otherwise
the arithmetic mean compared (inclusively) against the threshold. -/
def calculateScore (scores : List SpamScore) (threshold : ℚ) : ℚ × Bool :=
  if scores.length = 0 then (0, false)
  else
    let totalScore := (scores.map (fun sc => sc.score)).sum
    let averageScore := totalScore / (scores.length : ℚ)
    (averageScore, decide (threshold ≤ averageScore))

/-- A registered `SpamRule`: a name and an evaluation against the store; a
`.error` result models a rule whose `Evaluate` returns a non-nil error. -/
structure SpamRule where
  name : String
  evaluate : Store → String → String → Except String SpamScore

/-- The Go `models.SpamDetectionResult` (the RFC3339 timestamp field is
not modelled). -/
structure SpamDetectionResult where
  phoneNumber : String
  userPhoneNumber : String
  isSpam : Bool
  averageScore : ℚ
  ruleScores : List SpamScore

/-- `Except.toOption`: successes survive, errors are dropped. -/
def exceptToOption {α : Type} : Except String α → Option α
  | .ok a => some a
  | .error _ => none

/-- `SpamDetectionService.DetectSpam`: error when no rules are registered;
otherwise evaluate every rule, skip the failing ones, and aggregate the
surviving scores with the average scorer. -/
def detectSpam (rules : List SpamRule) (threshold : ℚ) (s : Store)
    (phoneNumber userPhoneNumber : String) : Except String SpamDetectionResult :=
  if rules.length = 0 then Except.error "no spam detection rules registered"
  else
    let ruleScores := rules.filterMap
      (fun r => exceptToOption (r.evaluate s phoneNumber userPhoneNumber))
    let agg := calculateScore ruleScores threshold
    Except.ok { phoneNumber := phoneNumber, userPhoneNumber := userPhoneNumber,
                isSpam := agg.2, averageScore := agg.1, ruleScores := ruleScores }

/-- The contact-count rule packaged as a registrable `SpamRule`
(`NewContactCountRule`). -/
def contactCountRule (threshold : Int) (maxScore : ℚ) : SpamRule :=
  { name := "contact_count_rule",
    evaluate := fun s phone _ => Except.ok (contactCountEvaluate threshold maxScore s phone) }

/-- A rule whose `Evaluate` always fails, modelling an arbitrary registered
rule implementation that returns an error. -/
def alwaysFailingRule : SpamRule :=
  { name := "always_failing_rule",
    evaluate := fun _ _ _ => Except.error "rule evaluation failed" }

/-- Is an `Except` a success? -/
def exceptIsOk {α : Type} : Except String α → Bool
  | .ok _ => true
  | .error _ => false

/-! ### Helper lemmas -/

theorem addQuad_counter (s : Store) (q : Quad) :
    (addQuad s q).edgeCounter = s.edgeCounter := by
  unfold addQuad
  split <;> rfl

theorem mem_addQuad_self (s : Store) (q : Quad) : q ∈ (addQuad s q).quads := by
  unfold addQuad
  split
  · assumption
  · simp

theorem mem_addQuad_of_mem (s : Store) (q q' : Quad) (h : q' ∈ s.quads) :
    q' ∈ (addQuad s q).quads := by
  unfold addQuad
  split
  · exact h
  · simp [h]

theorem nodeExists_of_mem (s : Store) (phone : String) (q : Quad)
    (hq : q ∈ s.quads) (hs : q.subject = phone) (hp : q.predicate = "type") :
    nodeExists s phone = true := by
  unfold nodeExists
  rw [List.any_eq_true]
  exact ⟨q, hq, by simp [hs, hp]⟩

theorem nodeExists_addQuad_mono (s : Store) (q : Quad) (phone : String)
    (h : nodeExists s phone = true) : nodeExists (addQuad s q) phone = true := by
  unfold nodeExists at h ⊢
  rw [List.any_eq_true] at h ⊢
  obtain ⟨q', hq', hpred⟩ := h
  exact ⟨q', mem_addQuad_of_mem s q q' hq', hpred⟩

theorem isDirectContact_of_mem (s : Store) (user caller : String)
    (h : (⟨user, "has_contact", QuadValue.str caller⟩ : Quad) ∈ s.quads) :
    isDirectContact s user caller = true := by
  unfold isDirectContact
  rw [List.any_eq_true]
  exact ⟨_, h, by simp⟩

theorem nodeExists_ensure (s : Store) (f : String) :
    nodeExists (if nodeExists s f then s
      else addQuad s ⟨f, "type", QuadValue.str "node"⟩) f = true := by
  by_cases h : nodeExists s f
  · rw [if_pos h]
    exact h
  · rw [if_neg h]
    exact nodeExists_of_mem _ f _ (mem_addQuad_self s _) rfl rfl

theorem nodeExists_ensure_mono (s : Store) (f g : String)
    (h : nodeExists s g = true) :
    nodeExists (if nodeExists s f then s
      else addQuad s ⟨f, "type", QuadValue.str "node"⟩) g = true := by
  by_cases hf : nodeExists s f
  · rw [if_pos hf]
    exact h
  · rw [if_neg hf]
    exact nodeExists_addQuad_mono s _ g h

theorem ensure_counter (s : Store) (f : String) :
    (if nodeExists s f then s
      else addQuad s ⟨f, "type", QuadValue.str "node"⟩).edgeCounter
        = s.edgeCounter := by
  by_cases h : nodeExists s f
  · rw [if_pos h]
  · rw [if_neg h]
    exact addQuad_counter s _

theorem ensure2_counter (s : Store) (f t : String) :
    (if nodeExists (if nodeExists s f then s
        else addQuad s ⟨f, "type", QuadValue.str "node"⟩) t
      then (if nodeExists s f then s
        else addQuad s ⟨f, "type", QuadValue.str "node"⟩)
      else addQuad (if nodeExists s f then s
        else addQuad s ⟨f, "type", QuadValue.str "node"⟩)
          ⟨t, "type", QuadValue.str "node"⟩).edgeCounter = s.edgeCounter := by
  rw [ensure_counter, ensure_counter]

theorem buildContactEdgeOut_fields (s : Store) (phone : String) (q : Quad)
    (now : Int) :
    (buildContactEdgeOut s phone q now).from' = phone ∧
    (buildContactEdgeOut s phone q now).to' = q.object.toDisplayString := by
  unfold buildContactEdgeOut
  rcases h : findQuadValue s (phone ++ "_contact_" ++ q.object.toDisplayString) "name"
    with _ | nv <;> simp [h]

theorem mem_getUsersWithContact_of_mem (s : Store) (phone : String) (q : Quad)
    (hq : q ∈ s.quads) (hpred : q.predicate = "has_contact")
    (hobj : q.object = QuadValue.str phone) :
    q.subject ∈ (getUsersWithContact s phone).1 := by
  unfold getUsersWithContact
  apply List.mem_map.mpr
  exact ⟨q, List.mem_filter.mpr ⟨hq, by simp [hpred, hobj]⟩, rfl⟩

theorem contactCountScore_bounds (T : Int) (M : ℚ) (count : Nat)
    (hT : 0 ≤ T) (hM0 : 0 ≤ M) (hM1 : M ≤ 1) :
    0 ≤ contactCountScore T M count ∧ contactCountScore T M count ≤ 1 := by
  unfold contactCountScore
  split
  · exact ⟨hM0, hM1⟩
  · split
    · rename_i hne hlt
      have hc1 : 1 ≤ count := Nat.one_le_iff_ne_zero.mpr hne
      have hcq : (1 : ℚ) ≤ (count : ℚ) := by exact_mod_cast hc1
      have hltq : (count : ℚ) < (T : ℚ) := by exact_mod_cast hlt
      have hTpos : (0 : ℚ) < (T : ℚ) := lt_of_le_of_lt (by linarith) hltq
      have hdiv0 : 0 ≤ (count : ℚ) / (T : ℚ) := by positivity
      have hdiv1 : (count : ℚ) / (T : ℚ) ≤ 1 := by
        rw [div_le_one hTpos]
        exact le_of_lt hltq
      constructor
      · exact mul_nonneg hM0 (by linarith)
      · calc M * (1 - (count : ℚ) / (T : ℚ)) ≤ M * 1 := by
              apply mul_le_mul_of_nonneg_left _ hM0
              linarith
          _ ≤ 1 := by linarith
    · rename_i hne hge
      have hc1 : 1 ≤ count := Nat.one_le_iff_ne_zero.mpr hne
      have hcq : (1 : ℚ) ≤ (count : ℚ) := by exact_mod_cast hc1
      have hgeq : (T : ℚ) ≤ (count : ℚ) := by
        have := not_lt.mp hge
        exact_mod_cast this
      have hT0 : (0 : ℚ) ≤ (T : ℚ) := by exact_mod_cast hT
      have hden : (0 : ℚ) < (count : ℚ) + (T : ℚ) := by linarith
      have hratio : 0 ≤ ((count : ℚ) - (T : ℚ)) / ((count : ℚ) + (T : ℚ)) := by
        apply div_nonneg (by linarith) (le_of_lt hden)
      split
      · constructor
        · exact le_refl 0
        · norm_num
      · rename_i hclamp
        constructor
        · exact not_lt.mp hclamp
        · have : (1 : ℚ) - ((count : ℚ) - (T : ℚ)) / ((count : ℚ) + (T : ℚ)) ≤ 1 := by
            linarith
          nlinarith

theorem callPatternScore_eq_min (K : ℚ) (count : Nat) (h : count ≠ 0) :
    callPatternScore K count = min K (K * (1 - 1 / (1 + (count : ℚ)))) := by
  unfold callPatternScore
  rw [if_neg h]
  rcases le_or_lt (K * (1 - 1 / (1 + (count : ℚ)))) K with hle | hlt
  · rw [if_neg (not_lt.mpr hle), min_eq_right hle]
  · rw [if_pos hlt, min_eq_left (le_of_lt hlt)]

theorem callPatternFactor_bounds (count : Nat) (h : count ≠ 0) :
    0 ≤ 1 - 1 / (1 + (count : ℚ)) ∧ 1 - 1 / (1 + (count : ℚ)) < 1 := by
  have hc1 : (1 : ℚ) ≤ (count : ℚ) := by exact_mod_cast Nat.one_le_iff_ne_zero.mpr h
  have hpos : (0 : ℚ) < 1 + (count : ℚ) := by linarith
  have h1 : 1 / (1 + (count : ℚ)) ≤ 1 := by
    rw [div_le_one hpos]
    linarith
  have h2 : 0 < 1 / (1 + (count : ℚ)) := by positivity
  exact ⟨by linarith, by linarith⟩

theorem callPatternScore_bounds (K : ℚ) (count : Nat) (hK0 : 0 ≤ K) (hK1 : K ≤ 1) :
    0 ≤ callPatternScore K count ∧ callPatternScore K count ≤ 1 := by
  by_cases h : count = 0
  · unfold callPatternScore
    rw [if_pos h]
    norm_num
  · rw [callPatternScore_eq_min K count h]
    obtain ⟨hf0, hf1⟩ := callPatternFactor_bounds count h
    constructor
    · exact le_min hK0 (mul_nonneg hK0 hf0)
    · exact le_trans (min_le_left _ _) hK1

theorem callPatternScore_mono (K : ℚ) (c₁ c₂ : Nat) (h1 : c₁ ≠ 0) (h12 : c₁ ≤ c₂) :
    callPatternScore K c₁ ≤ callPatternScore K c₂ := by
  have h2 : c₂ ≠ 0 := by omega
  rw [callPatternScore_eq_min K c₁ h1, callPatternScore_eq_min K c₂ h2]
  have hc₁pos : (0 : ℚ) < 1 + (c₁ : ℚ) := by positivity
  have hc₂pos : (0 : ℚ) < 1 + (c₂ : ℚ) := by positivity
  have hcc : (1 : ℚ) + (c₁ : ℚ) ≤ 1 + (c₂ : ℚ) := by
    have : (c₁ : ℚ) ≤ (c₂ : ℚ) := by exact_mod_cast h12
    linarith
  have hinv : 1 / (1 + (c₂ : ℚ)) ≤ 1 / (1 + (c₁ : ℚ)) :=
    one_div_le_one_div_of_le hc₁pos hcc
  rcases le_or_lt 0 K with hK | hK
  · apply min_le_min (le_refl K)
    apply mul_le_mul_of_nonneg_left _ hK
    linarith
  · have e₁ : K ≤ K * (1 - 1 / (1 + (c₁ : ℚ))) := by
      obtain ⟨hf0, hf1⟩ := callPatternFactor_bounds c₁ h1
      nlinarith
    have e₂ : K ≤ K * (1 - 1 / (1 + (c₂ : ℚ))) := by
      obtain ⟨hf0, hf1⟩ := callPatternFactor_bounds c₂ h2
      nlinarith
    rw [min_eq_left e₁, min_eq_left e₂]

/-! ### Claim theorems -/

/-- C3: `CalculateScore(scores, threshold)` returns `(0.0, false)` for an
empty score list; for every non-empty list it returns the average (sum of
scores over their number) and `isSpam` is true exactly when the average is
at least the threshold. -/
theorem calculateScore_spec (scores : List SpamScore) (threshold : ℚ) :
    (scores = [] → calculateScore scores threshold = (0, false)) ∧
    (scores ≠ [] →
      (calculateScore scores threshold).1
          = (scores.map (fun sc => sc.score)).sum / (scores.length : ℚ) ∧
      ((calculateScore scores threshold).2 = true ↔
        (scores.map (fun sc => sc.score)).sum / (scores.length : ℚ) ≥ threshold)) := by
  constructor
  · intro h
    subst h
    rfl
  · intro h
    have hlen : scores.length ≠ 0 := by
      simpa [List.length_eq_zero] using h
    unfold calculateScore
    rw [if_neg hlen]
    refine ⟨rfl, ?_⟩
    simp [ge_iff_le]

/-- C3 witness: the contract evaluated at `[]` and at a concrete two-score
list with threshold `1/2` (average `3/4`, flagged as spam). -/
theorem calculateScore_spec_witness :
    calculateScore [] (1/2) = (0, false) ∧
    (calculateScore [⟨"a", 1/2, "r"⟩, ⟨"b", 1, "r"⟩] (1/2)).1 = (3/4 : ℚ) ∧
    (calculateScore [⟨"a", 1/2, "r"⟩, ⟨"b", 1, "r"⟩] (1/2)).2 = true := by
  refine ⟨(calculateScore_spec [] (1/2)).1 rfl, ?_, ?_⟩
  · have h := ((calculateScore_spec [⟨"a", 1/2, "r"⟩, ⟨"b", 1, "r"⟩] (1/2)).2
      (by simp)).1
    rw [h]
    norm_num
  · have h := ((calculateScore_spec [⟨"a", 1/2, "r"⟩, ⟨"b", 1, "r"⟩] (1/2)).2
      (by simp)).2
    rw [h]
    norm_num

/-- C4: with `n` the count returned by `GetUsersWithContact`, the
contact-count rule scores `M` at `n = 0`, `M * (1 - n/T)` for `0 < n < T`,
and `max(0, 0.1 * (1 - (n-T)/(n+T)))` for `n ≥ T` (with `n ≠ 0`). -/
theorem contactCountEvaluate_spec (T : Int) (M : ℚ) (s : Store) (phone : String)
    (n : Nat) (hn : n = (getUsersWithContact s phone).2) :
    (n = 0 → (contactCountEvaluate T M s phone).score = M) ∧
    (0 < n → (n : Int) < T →
      (contactCountEvaluate T M s phone).score = M * (1 - (n : ℚ) / (T : ℚ))) ∧
    (n ≠ 0 → T ≤ (n : Int) →
      (contactCountEvaluate T M s phone).score
        = max 0 ((1 / 10 : ℚ) * (1 - ((n : ℚ) - (T : ℚ)) / ((n : ℚ) + (T : ℚ))))) := by
  have hsc : (contactCountEvaluate T M s phone).score
      = contactCountScore T M (getUsersWithContact s phone).2 := rfl
  rw [← hn] at hsc
  refine ⟨?_, ?_, ?_⟩
  · intro h0
    rw [hsc]
    unfold contactCountScore
    rw [if_pos h0]
  · intro hpos hlt
    rw [hsc]
    unfold contactCountScore
    rw [if_neg (Nat.pos_iff_ne_zero.mp hpos), if_pos hlt]
  · intro hne hge
    rw [hsc]
    unfold contactCountScore
    rw [if_neg hne, if_neg (not_lt.mpr hge)]
    rcases lt_or_le ((1 / 10 : ℚ) *
        (1 - ((n : ℚ) - (T : ℚ)) / ((n : ℚ) + (T : ℚ)))) 0 with h | h
    · rw [if_pos h, max_eq_left (le_of_lt h)]
    · rw [if_neg (not_lt.mpr h), max_eq_right h]

/-- C4 witness: the three branches exercised at concrete stores with 0, 1
and 3 users saving the number, with threshold 3 and max score 9/10. -/
theorem contactCountEvaluate_spec_witness :
    (contactCountEvaluate 3 (9/10) Store.empty "555").score = (9/10 : ℚ) ∧
    (contactCountEvaluate 3 (9/10)
      ⟨[⟨"A", "has_contact", QuadValue.str "555"⟩], 0⟩ "555").score
        = (9/10 : ℚ) * (1 - (1 : ℚ) / (3 : ℚ)) ∧
    (contactCountEvaluate 3 (9/10)
      ⟨[⟨"A", "has_contact", QuadValue.str "555"⟩,
        ⟨"B", "has_contact", QuadValue.str "555"⟩,
        ⟨"C", "has_contact", QuadValue.str "555"⟩], 0⟩ "555").score
        = max 0 ((1 / 10 : ℚ) * (1 - ((3 : ℚ) - (3 : ℚ)) / ((3 : ℚ) + (3 : ℚ)))) := by
  refine ⟨?_, ?_, ?_⟩
  · exact (contactCountEvaluate_spec 3 (9/10) Store.empty "555" 0 (by decide)).1 rfl
  · exact (contactCountEvaluate_spec 3 (9/10)
      ⟨[⟨"A", "has_contact", QuadValue.str "555"⟩], 0⟩ "555" 1 (by decide)).2.1
        (by decide) (by decide)
  · exact (contactCountEvaluate_spec 3 (9/10)
      ⟨[⟨"A", "has_contact", QuadValue.str "555"⟩,
        ⟨"B", "has_contact", QuadValue.str "555"⟩,
        ⟨"C", "has_contact", QuadValue.str "555"⟩], 0⟩ "555" 3 (by decide)).2.2
        (by decide) (by decide)

/-- C5: the second-level-contact rule returns score `0` with the "skipped"
reason and performs no store query when the user phone number is empty, and
whenever the caller is a direct contact it returns score `0` without ever
invoking `GetSecondLevelContactCount`. -/
theorem secondLevelEvaluate_short_circuit (T : Int) (M : ℚ) (s : Store)
    (phone user : String) :
    (user = "" →
      secondLevelEvaluate T M s phone user =
        ({ ruleName := "second_level_contact_rule", score := 0,
           reason := "User phone number not provided, skipping second-level contact check" },
         [])) ∧
    (isDirectContact s user phone = true →
      (secondLevelEvaluate T M s phone user).1.score = 0 ∧
      ∀ u c, StoreQuery.getSecondLevelContactCountQ u c
        ∉ (secondLevelEvaluate T M s phone user).2) := by
  constructor
  · intro h
    unfold secondLevelEvaluate
    rw [if_pos h]
  · intro h
    by_cases hu : user = ""
    · unfold secondLevelEvaluate
      rw [if_pos hu]
      exact ⟨rfl, by intro u c; simp⟩
    · unfold secondLevelEvaluate
      rw [if_neg hu, if_pos h]
      refine ⟨rfl, ?_⟩
      intro u c
      simp

/-- C5 witness: the skip branch on the empty store, and the direct-contact
branch on a store where the caller is a saved contact of the user. -/
theorem secondLevelEvaluate_short_circuit_witness :
    secondLevelEvaluate 3 (9/10) Store.empty "555" "" =
      ({ ruleName := "second_level_contact_rule", score := 0,
         reason := "User phone number not provided, skipping second-level contact check" },
       []) ∧
    (secondLevelEvaluate 3 (9/10)
      ⟨[⟨"777", "has_contact", QuadValue.str "555"⟩], 0⟩ "555" "777").1.score = 0 ∧
    StoreQuery.getSecondLevelContactCountQ "777" "555"
      ∉ (secondLevelEvaluate 3 (9/10)
          ⟨[⟨"777", "has_contact", QuadValue.str "555"⟩], 0⟩ "555" "777").2 := by
  refine ⟨(secondLevelEvaluate_short_circuit 3 (9/10) Store.empty "555" "").1 rfl, ?_, ?_⟩
  · exact ((secondLevelEvaluate_short_circuit 3 (9/10)
      ⟨[⟨"777", "has_contact", QuadValue.str "555"⟩], 0⟩ "555" "777").2 (by decide)).1
  · exact ((secondLevelEvaluate_short_circuit 3 (9/10)
      ⟨[⟨"777", "has_contact", QuadValue.str "555"⟩], 0⟩ "555" "777").2 (by decide)).2
        "777" "555"

/-- C10: the backward-compatible `AddContactEdge`, which builds a
`ContactMetadata` with an empty name, always fails validation with the
"contact name cannot be empty" error and returns the store unchanged: no
edge and no nodes are created. -/
theorem addContactEdge_always_fails (s : Store) (phone1 phone2 : String) (now : Int) :
    addContactEdge s phone1 phone2 now
      = (Except.error "invalid metadata: contact name cannot be empty", s) := by
  rfl

/-- C1 counterexample: the claim quantifies over all constructor
parameters, but the contact-count rule with `maxScore = 2` returns score
`2 > 1` on the empty store (nobody has saved the number). -/
theorem ruleScore_unit_interval_counterexample :
    ¬ (0 ≤ (contactCountEvaluate 3 2 Store.empty "555").score ∧
       (contactCountEvaluate 3 2 Store.empty "555").score ≤ 1) := by
  intro ⟨_, h⟩
  have he : (contactCountEvaluate 3 2 Store.empty "555").score = 2 := by
    norm_num [contactCountEvaluate, contactCountScore, getUsersWithContact, Store.empty]
  rw [he] at h
  norm_num at h

/-- C1 amended: for every graph store state and input phone numbers, the
scores of the three registered rules lie in `[0, 1]` provided the
constructor parameters satisfy `0 ≤ threshold`, `0 ≤ maxScore ≤ 1` and
`0 ≤ weight ≤ 1` (the shipped configuration satisfies these). -/
theorem ruleScores_in_unit_interval (T T₂ D W : Int) (M M₂ K : ℚ)
    (s : Store) (phone user : String) (now : Int)
    (hT : 0 ≤ T) (hM0 : 0 ≤ M) (hM1 : M ≤ 1)
    (hT₂ : 0 ≤ T₂) (hM₂0 : 0 ≤ M₂) (hM₂1 : M₂ ≤ 1)
    (hK0 : 0 ≤ K) (hK1 : K ≤ 1) :
    (0 ≤ (contactCountEvaluate T M s phone).score ∧
      (contactCountEvaluate T M s phone).score ≤ 1) ∧
    (0 ≤ (callPatternEvaluate D W K s phone now).score ∧
      (callPatternEvaluate D W K s phone now).score ≤ 1) ∧
    (0 ≤ (secondLevelEvaluate T₂ M₂ s phone user).1.score ∧
      (secondLevelEvaluate T₂ M₂ s phone user).1.score ≤ 1) := by
  refine ⟨?_, ?_, ?_⟩
  · exact contactCountScore_bounds T M (getUsersWithContact s phone).2 hT hM0 hM1
  · exact callPatternScore_bounds K
      (getCallsWithFilters s phone (callPatternFilters D W now) "both").2 hK0 hK1
  · unfold secondLevelEvaluate
    split
    · norm_num
    · split
      · norm_num
      · exact contactCountScore_bounds T₂ M₂
          (getSecondLevelContactCount s user phone) hT₂ hM₂0 hM₂1

/-- C1 witness: the amended bounds at the shipped parameters (threshold 3,
max score 9/10, weight 6/10) on a store with one saved contact and one
short answered call. -/
theorem ruleScores_in_unit_interval_witness :
    (0 ≤ (contactCountEvaluate 3 (9/10)
        (addCallEdge ⟨[⟨"A", "has_contact", QuadValue.str "555"⟩], 0⟩
          "555" "U" true 10 1000).2 "555").score ∧
      (contactCountEvaluate 3 (9/10)
        (addCallEdge ⟨[⟨"A", "has_contact", QuadValue.str "555"⟩], 0⟩
          "555" "U" true 10 1000).2 "555").score ≤ 1) ∧
    (0 ≤ (callPatternEvaluate 30 3600 (6/10)
        (addCallEdge ⟨[⟨"A", "has_contact", QuadValue.str "555"⟩], 0⟩
          "555" "U" true 10 1000).2 "555" 1000).score ∧
      (callPatternEvaluate 30 3600 (6/10)
        (addCallEdge ⟨[⟨"A", "has_contact", QuadValue.str "555"⟩], 0⟩
          "555" "U" true 10 1000).2 "555" 1000).score ≤ 1) ∧
    (0 ≤ (secondLevelEvaluate 3 (9/10)
        (addCallEdge ⟨[⟨"A", "has_contact", QuadValue.str "555"⟩], 0⟩
          "555" "U" true 10 1000).2 "555" "A").1.score ∧
      (secondLevelEvaluate 3 (9/10)
        (addCallEdge ⟨[⟨"A", "has_contact", QuadValue.str "555"⟩], 0⟩
          "555" "U" true 10 1000).2 "555" "A").1.score ≤ 1) :=
  ruleScores_in_unit_interval 3 3 30 3600 (9/10) (9/10) (6/10)
    (addCallEdge ⟨[⟨"A", "has_contact", QuadValue.str "555"⟩], 0⟩
      "555" "U" true 10 1000).2 "555" "A" 1000
    (by norm_num) (by norm_num) (by norm_num) (by norm_num) (by norm_num)
    (by norm_num) (by norm_num) (by norm_num)

/-- C2: `DetectSpam` returns an error exactly when zero rules are
registered; the scores aggregated in a successful result are exactly those
of the rules whose evaluation succeeded (failing rules are excluded), and
with at least one registered rule the call succeeds even if every rule
fails — so a failed detection call implies no rule was evaluated. -/
theorem detectSpam_spec (rules : List SpamRule) (threshold : ℚ) (s : Store)
    (phone user : String) :
    ((∃ msg, detectSpam rules threshold s phone user = Except.error msg) ↔ rules = []) ∧
    (∀ res, detectSpam rules threshold s phone user = Except.ok res →
      res.ruleScores = rules.filterMap
        (fun r => exceptToOption (r.evaluate s phone user))) ∧
    (rules ≠ [] → exceptIsOk (detectSpam rules threshold s phone user) = true) := by
  by_cases h : rules.length = 0
  · have hnil : rules = [] := List.length_eq_zero.mp h
    subst hnil
    refine ⟨⟨fun _ => rfl, fun _ => ⟨_, rfl⟩⟩, ?_, ?_⟩
    · intro res hres
      exact absurd hres (by simp [detectSpam])
    · intro hne
      exact absurd rfl hne
  · have hne : rules ≠ [] := by
      intro hnil
      exact h (by simp [hnil])
    refine ⟨?_, ?_, ?_⟩
    · constructor
      · intro ⟨msg, hmsg⟩
        unfold detectSpam at hmsg
        rw [if_neg h] at hmsg
        exact absurd hmsg (by simp)
      · intro hnil
        exact absurd hnil hne
    · intro res hres
      unfold detectSpam at hres
      rw [if_neg h] at hres
      have := Except.ok.inj hres
      rw [← this]
    · intro _
      unfold detectSpam exceptIsOk
      rw [if_neg h]

/-- C2 witness: with no rules the call errors; with a single always-failing
rule registered the call still succeeds and aggregates an empty score
list. -/
theorem detectSpam_spec_witness :
    (detectSpam [] (1/2) Store.empty "555" "" = Except.error "no spam detection rules registered") ∧
    exceptIsOk (detectSpam [alwaysFailingRule] (1/2) Store.empty "555" "") = true ∧
    (∀ res, detectSpam [alwaysFailingRule] (1/2) Store.empty "555" "" = Except.ok res →
      res.ruleScores = []) := by
  refine ⟨?_, ?_, ?_⟩
  · have h := ((detectSpam_spec [] (1/2) Store.empty "555" "").1.mpr rfl)
    obtain ⟨msg, hmsg⟩ := h
    have : msg = "no spam detection rules registered" := by
      unfold detectSpam at hmsg
      simp at hmsg
      exact hmsg.symm
    rw [← this]
    exact hmsg
  · exact (detectSpam_spec [alwaysFailingRule] (1/2) Store.empty "555" "").2.2
      (by simp)
  · intro res hres
    exact (detectSpam_spec [alwaysFailingRule] (1/2) Store.empty "555" "").2.1 res hres

/-- C6: with `c` the number of answered calls of duration at most `D`
touching the phone in the window of length `W` before `now`, the
call-pattern rule scores `0` at `c = 0` and `min(K, K * (1 - 1/(1+c)))` at
`c > 0`; the score function is monotone in the suspicious-call count and
never exceeds `K` once `c ≥ 1`; and `c = 1` with `K = 3/5` yields `3/10`. -/
theorem callPatternEvaluate_spec (D W : Int) (K : ℚ) (s : Store) (phone : String)
    (now : Int) (c : Nat)
    (hc : c = (getCallsWithFilters s phone (callPatternFilters D W now) "both").2) :
    (c = 0 → (callPatternEvaluate D W K s phone now).score = 0) ∧
    (0 < c → (callPatternEvaluate D W K s phone now).score
        = min K (K * (1 - 1 / (1 + (c : ℚ))))) ∧
    (∀ c₁ c₂ : Nat, 1 ≤ c₁ → c₁ ≤ c₂ →
      callPatternScore K c₁ ≤ callPatternScore K c₂) ∧
    (1 ≤ c → (callPatternEvaluate D W K s phone now).score ≤ K) ∧
    callPatternScore (3/5) 1 = (3/10 : ℚ) := by
  have hsc : (callPatternEvaluate D W K s phone now).score
      = callPatternScore K
          (getCallsWithFilters s phone (callPatternFilters D W now) "both").2 := rfl
  rw [← hc] at hsc
  refine ⟨?_, ?_, ?_, ?_, ?_⟩
  · intro h0
    rw [hsc, h0]
    unfold callPatternScore
    rw [if_pos rfl]
  · intro hpos
    rw [hsc]
    exact callPatternScore_eq_min K c (Nat.pos_iff_ne_zero.mp hpos)
  · intro c₁ c₂ h1 h12
    exact callPatternScore_mono K c₁ c₂ (by omega) h12
  · intro h1
    rw [hsc, callPatternScore_eq_min K c (by omega)]
    exact min_le_left _ _
  · norm_num [callPatternScore]

/-- C6 witness: one answered 10-second call `U -> A` inserted at time 1000;
the rule with `D = 30s`, `W = 3600s`, `K = 3/5` evaluated on `U` at time
1000 sees `c = 1` and scores `min(3/5, 3/5 * (1 - 1/2)) = 3/10`. -/
theorem callPatternEvaluate_spec_witness :
    (callPatternEvaluate 30 3600 (3/5)
      (addCallEdge Store.empty "U" "A" true 10 1000).2 "U" 1000).score
        = min (3/5 : ℚ) ((3/5 : ℚ) * (1 - 1 / (1 + (1 : ℚ)))) ∧
    (callPatternEvaluate 30 3600 (3/5)
      (addCallEdge Store.empty "U" "A" true 10 1000).2 "U" 1000).score ≤ (3/5 : ℚ) ∧
    callPatternScore (3/5) 1 = (3/10 : ℚ) := by
  refine ⟨?_, ?_, ?_⟩
  · exact (callPatternEvaluate_spec 30 3600 (3/5)
      (addCallEdge Store.empty "U" "A" true 10 1000).2 "U" 1000 1 (by decide)).2.1
        (by decide)
  · exact (callPatternEvaluate_spec 30 3600 (3/5)
      (addCallEdge Store.empty "U" "A" true 10 1000).2 "U" 1000 1 (by decide)).2.2.2.1
        (by decide)
  · exact (callPatternEvaluate_spec 30 3600 (3/5)
      (addCallEdge Store.empty "U" "A" true 10 1000).2 "U" 1000 1 (by decide)).2.2.2.2

/-- C7: `AddEdgeWithMetadata` fails with the validation error and leaves
the store unchanged when the metadata is invalid (all-or-nothing); on
success both endpoint nodes exist afterwards, the shared edge counter is
incremented by exactly one, and the returned edge's ID is the edge type
followed by the new counter value. -/
theorem addEdgeWithMetadata_spec (s : Store) (f t : String) (m : EdgeMetadata) :
    (∀ msg, m.validate = some msg →
      addEdgeWithMetadata s f t m = (Except.error ("invalid metadata: " ++ msg), s)) ∧
    (m.validate = none →
      nodeExists (addEdgeWithMetadata s f t m).2 f = true ∧
      nodeExists (addEdgeWithMetadata s f t m).2 t = true ∧
      (addEdgeWithMetadata s f t m).2.edgeCounter = s.edgeCounter + 1 ∧
      ∃ e, (addEdgeWithMetadata s f t m).1 = Except.ok e ∧
        e.id = m.edgeType ++ "_" ++ toString (s.edgeCounter + 1)) := by
  constructor
  · intro msg hmsg
    unfold addEdgeWithMetadata
    rw [hmsg]
  · intro hv
    have hf : nodeExists (if nodeExists s f then s
        else addQuad s ⟨f, "type", QuadValue.str "node"⟩) f = true :=
      nodeExists_ensure s f
    cases m with
    | contact name addedAt =>
      have hname : ¬(name = "") := by
        intro h
        rw [EdgeMetadata.validate, if_pos h] at hv
        exact absurd hv (by simp)
      simp only [addEdgeWithMetadata, EdgeMetadata.validate, if_neg hname]
      refine ⟨?_, ?_, ?_, ?_⟩
      · exact nodeExists_addQuad_mono _ _ _ (nodeExists_addQuad_mono _ _ _
          (nodeExists_addQuad_mono _ _ _ (nodeExists_addQuad_mono _ _ _
            (nodeExists_addQuad_mono _ _ _ (nodeExists_ensure_mono _ _ _ hf)))))
      · exact nodeExists_addQuad_mono _ _ _ (nodeExists_addQuad_mono _ _ _
          (nodeExists_addQuad_mono _ _ _ (nodeExists_addQuad_mono _ _ _
            (nodeExists_addQuad_mono _ _ _ (nodeExists_ensure _ _)))))
      · rw [addQuad_counter, addQuad_counter, addQuad_counter, addQuad_counter,
          addQuad_counter]
        exact congrArg (fun n => n + 1) (ensure2_counter s f t)
      · refine ⟨_, rfl, ?_⟩
        exact congrArg
          (fun n => EdgeMetadata.edgeType (EdgeMetadata.contact name addedAt)
            ++ "_" ++ toString (n + 1)) (ensure2_counter s f t)
    | call ans dur ts =>
      have hdur : ¬(dur < 0) := by
        intro h
        rw [EdgeMetadata.validate, if_pos h] at hv
        exact absurd hv (by simp)
      simp only [addEdgeWithMetadata, EdgeMetadata.validate, if_neg hdur]
      refine ⟨?_, ?_, ?_, ?_⟩
      · exact nodeExists_addQuad_mono _ _ _ (nodeExists_addQuad_mono _ _ _
          (nodeExists_addQuad_mono _ _ _ (nodeExists_addQuad_mono _ _ _
            (nodeExists_addQuad_mono _ _ _ (nodeExists_addQuad_mono _ _ _
              (nodeExists_ensure_mono _ _ _ hf))))))
      · exact nodeExists_addQuad_mono _ _ _ (nodeExists_addQuad_mono _ _ _
          (nodeExists_addQuad_mono _ _ _ (nodeExists_addQuad_mono _ _ _
            (nodeExists_addQuad_mono _ _ _ (nodeExists_addQuad_mono _ _ _
              (nodeExists_ensure _ _))))))
      · rw [addQuad_counter, addQuad_counter, addQuad_counter, addQuad_counter,
          addQuad_counter, addQuad_counter]
        exact congrArg (fun n => n + 1) (ensure2_counter s f t)
      · refine ⟨_, rfl, ?_⟩
        exact congrArg
          (fun n => EdgeMetadata.edgeType (EdgeMetadata.call ans dur ts)
            ++ "_" ++ toString (n + 1)) (ensure2_counter s f t)

/-- C7 witness: inserting a call edge with a negative duration fails with
the validation error and leaves the store unchanged, while inserting a
valid contact edge into the empty store creates both endpoint nodes, bumps
the counter to 1 and returns edge ID `has_contact_1`. -/
theorem addEdgeWithMetadata_spec_witness :
    addEdgeWithMetadata Store.empty "U" "A" (EdgeMetadata.call true (-5) 0)
      = (Except.error "invalid metadata: call duration cannot be negative", Store.empty) ∧
    nodeExists (addEdgeWithMetadata Store.empty "U" "A"
      (EdgeMetadata.contact "alice" 7)).2 "U" = true ∧
    nodeExists (addEdgeWithMetadata Store.empty "U" "A"
      (EdgeMetadata.contact "alice" 7)).2 "A" = true ∧
    (addEdgeWithMetadata Store.empty "U" "A"
      (EdgeMetadata.contact "alice" 7)).2.edgeCounter = 1 ∧
    ∃ e, (addEdgeWithMetadata Store.empty "U" "A"
      (EdgeMetadata.contact "alice" 7)).1 = Except.ok e ∧
        e.id = "has_contact" ++ "_" ++ toString 1 := by
  refine ⟨?_, ?_⟩
  · exact (addEdgeWithMetadata_spec Store.empty "U" "A"
      (EdgeMetadata.call true (-5) 0)).1 "call duration cannot be negative" (by decide)
  · exact (addEdgeWithMetadata_spec Store.empty "U" "A"
      (EdgeMetadata.contact "alice" 7)).2 (by decide)

/-- C8: `DeleteNode` returns the node-not-found error exactly when the node
is absent (leaving the store unchanged); otherwise, afterwards no outgoing
contact edge of any node touches the deleted phone number and no stored
quad references it as subject or object. -/
theorem deleteNode_spec (s : Store) (X : String) (now : Int) :
    ((deleteNode s X).1 = Except.error "node not found" ↔ nodeExists s X = false) ∧
    (nodeExists s X = false → (deleteNode s X).2 = s) ∧
    (nodeExists s X = true →
      (∀ Y, ∀ e ∈ getOutgoingEdges (deleteNode s X).2 Y "has_contact" now,
        e.from' ≠ X ∧ e.to' ≠ X) ∧
      (∀ q ∈ (deleteNode s X).2.quads,
        q.subject ≠ X ∧ q.object.toDisplayString ≠ X)) := by
  by_cases h : nodeExists s X
  · have hs' : (deleteNode s X).2.quads = s.quads.filter
        (fun q => !(q.subject = X || q.object.toDisplayString = X)) := by
      simp [deleteNode, h]
    have hq' : ∀ q ∈ (deleteNode s X).2.quads,
        q.subject ≠ X ∧ q.object.toDisplayString ≠ X := by
      intro q hq
      rw [hs'] at hq
      have hmem := List.mem_filter.mp hq
      have := hmem.2
      simp only [Bool.not_eq_true', Bool.or_eq_false_iff, decide_eq_false_iff_not] at this
      exact this
    refine ⟨?_, ?_, ?_⟩
    · simp [deleteNode, h]
    · intro hfalse
      rw [h] at hfalse
      exact absurd hfalse (by simp)
    · intro _
      refine ⟨?_, hq'⟩
      intro Y e he
      unfold getOutgoingEdges at he
      rw [if_pos rfl] at he
      obtain ⟨q, hq, rfl⟩ := List.mem_map.mp he
      obtain ⟨hqmem, hqpred⟩ := List.mem_filter.mp hq
      have hqY : q.subject = Y := by
        simp only [Bool.and_eq_true, decide_eq_true_eq] at hqpred
        exact hqpred.1
      obtain ⟨hsub, hobj⟩ := hq' q hqmem
      obtain ⟨hf, ht⟩ := buildContactEdgeOut_fields (deleteNode s X).2 Y q now
      constructor
      · rw [hf, ← hqY]
        exact hsub
      · rw [ht]
        exact hobj
  · have hb : nodeExists s X = false := by
      simpa using h
    refine ⟨?_, fun _ => ?_, fun htrue => ?_⟩
    · simp [deleteNode, hb]
    · simp [deleteNode, hb]
    · rw [htrue] at hb
      exact absurd hb (by simp)

/-- C8 witness: deleting an absent node errors; after deleting `X` from a
store where `A` has contacts `X` and `B`, the remaining quads avoid `X` and
the surviving outgoing contact edge of `A` (to `B`) does not touch `X`. -/
theorem deleteNode_spec_witness :
    (deleteNode Store.empty "X").1 = Except.error "node not found" ∧
    ((⟨"A", "type", QuadValue.str "node"⟩ : Quad).subject ≠ "X" ∧
      (QuadValue.str "node").toDisplayString ≠ "X") ∧
    ((buildContactEdgeOut
        (deleteNode ⟨[⟨"A", "type", QuadValue.str "node"⟩,
          ⟨"X", "type", QuadValue.str "node"⟩,
          ⟨"A", "has_contact", QuadValue.str "X"⟩,
          ⟨"A", "has_contact", QuadValue.str "B"⟩], 0⟩ "X").2 "A"
        ⟨"A", "has_contact", QuadValue.str "B"⟩ 0).from' ≠ "X" ∧
      (buildContactEdgeOut
        (deleteNode ⟨[⟨"A", "type", QuadValue.str "node"⟩,
          ⟨"X", "type", QuadValue.str "node"⟩,
          ⟨"A", "has_contact", QuadValue.str "X"⟩,
          ⟨"A", "has_contact", QuadValue.str "B"⟩], 0⟩ "X").2 "A"
        ⟨"A", "has_contact", QuadValue.str "B"⟩ 0).to' ≠ "X") := by
  refine ⟨?_, ?_, ?_⟩
  · exact (deleteNode_spec Store.empty "X" 0).1.mpr (by decide)
  · exact ((deleteNode_spec ⟨[⟨"A", "type", QuadValue.str "node"⟩,
      ⟨"X", "type", QuadValue.str "node"⟩,
      ⟨"A", "has_contact", QuadValue.str "X"⟩,
      ⟨"A", "has_contact", QuadValue.str "B"⟩], 0⟩ "X" 0).2.2 (by decide)).2
        ⟨"A", "type", QuadValue.str "node"⟩ (by decide)
  · exact ((deleteNode_spec ⟨[⟨"A", "type", QuadValue.str "node"⟩,
      ⟨"X", "type", QuadValue.str "node"⟩,
      ⟨"A", "has_contact", QuadValue.str "X"⟩,
      ⟨"A", "has_contact", QuadValue.str "B"⟩], 0⟩ "X" 0).2.2 (by decide)).1
        "A" _ (by decide)

/-- C9: after a contact edge `A -> B` is successfully inserted (non-empty
contact name), `IsDirectContact(A, B)` returns true and the user list of
`GetUsersWithContact(B)` contains `A`. -/
theorem contactEdge_insert_spec (s : Store) (A B name : String) (addedAt : Int)
    (hname : name ≠ "") :
    isDirectContact
      (addEdgeWithMetadata s A B (EdgeMetadata.contact name addedAt)).2 A B = true ∧
    A ∈ (getUsersWithContact
      (addEdgeWithMetadata s A B (EdgeMetadata.contact name addedAt)).2 B).1 ∧
    exceptIsOk (addEdgeWithMetadata s A B (EdgeMetadata.contact name addedAt)).1
      = true := by
  simp only [addEdgeWithMetadata, EdgeMetadata.validate, if_neg hname]
  have hmem : (⟨A, "has_contact", QuadValue.str B⟩ : Quad) ∈
      (addQuad (addQuad (addQuad (addQuad (addQuad
        { (if nodeExists (if nodeExists s A then s
            else addQuad s ⟨A, "type", QuadValue.str "node"⟩) B
          then (if nodeExists s A then s
            else addQuad s ⟨A, "type", QuadValue.str "node"⟩)
          else addQuad (if nodeExists s A then s
            else addQuad s ⟨A, "type", QuadValue.str "node"⟩)
              ⟨B, "type", QuadValue.str "node"⟩) with
          edgeCounter := (if nodeExists (if nodeExists s A then s
            else addQuad s ⟨A, "type", QuadValue.str "node"⟩) B
          then (if nodeExists s A then s
            else addQuad s ⟨A, "type", QuadValue.str "node"⟩)
          else addQuad (if nodeExists s A then s
            else addQuad s ⟨A, "type", QuadValue.str "node"⟩)
              ⟨B, "type", QuadValue.str "node"⟩).edgeCounter + 1 }
        ⟨A, "has_contact", QuadValue.str B⟩)
        ⟨A ++ "_contact_" ++ B, "name", QuadValue.str name⟩)
        ⟨A ++ "_contact_" ++ B, "from", QuadValue.str A⟩)
        ⟨A ++ "_contact_" ++ B, "to", QuadValue.str B⟩)
        ⟨A ++ "_contact_" ++ B, "added_at", QuadValue.timeStr addedAt⟩).quads := by
    apply mem_addQuad_of_mem
    apply mem_addQuad_of_mem
    apply mem_addQuad_of_mem
    apply mem_addQuad_of_mem
    exact mem_addQuad_self _ _
  refine ⟨?_, ?_, rfl⟩
  · exact isDirectContact_of_mem _ A B hmem
  · exact mem_getUsersWithContact_of_mem _ B _ hmem rfl rfl

/-- C9 witness: inserting the contact edge `111 -> 222` (name "alice") into
the empty store makes `IsDirectContact("111", "222")` true and puts `111`
in `GetUsersWithContact("222")`. -/
theorem contactEdge_insert_spec_witness :
    isDirectContact
      (addEdgeWithMetadata Store.empty "111" "222"
        (EdgeMetadata.contact "alice" 5)).2 "111" "222" = true ∧
    "111" ∈ (getUsersWithContact
      (addEdgeWithMetadata Store.empty "111" "222"
        (EdgeMetadata.contact "alice" 5)).2 "222").1 ∧
    exceptIsOk (addEdgeWithMetadata Store.empty "111" "222"
      (EdgeMetadata.contact "alice" 5)).1 = true :=
  contactEdge_insert_spec Store.empty "111" "222" "alice" 5 (by decide)

end CredCode
